import Mathlib

/-!
Shallow embedding of `src/app.py`, a Streamlit stock dashboard.

Modelling conventions:
* Python `dict.get` on optional fields is modelled with `Option`; `none`
  stands for an absent key (or a `None` value, which `dict.get` also yields).
* Prices and timestamps are exact rationals (`ℚ`); the claims never hinge on
  float rounding beyond the two-decimal display format, which is modelled by
  `disp2` below.
* Each fallible fetch (`get_info_cached`, `get_stock_data` for the selected
  period and for "5d") is modelled as an `Except String` value carried in a
  `TickerData` record: `.error e` means the call raised an exception whose
  text is `e`.
* Streamlit calls (`st.warning`, `st.metric`, `st.markdown`, ...) are
  modelled as emitted `Output` events; a render pass produces a `List Output`.
-/

namespace App

/-- `CompanyInfo` record returned by `get_info_cached` (yfinance `get_info`).
Only the fields read by `app.py` are modelled. -/
structure CompanyInfo where
  shortName : Option String := none
  sector : Option String := none
  industry : Option String := none
  currentPrice : Option ℚ := none
  marketCap : Option ℚ := none
  fiftyTwoWeekHigh : Option ℚ := none
  fiftyTwoWeekLow : Option ℚ := none
  longBusinessSummary : Option String := none
  logo_url : Option String := none
  website : Option String := none
deriving DecidableEq, Repr

/-- One news record from the Finnhub response (`app.py` reads `headline`,
`url`, `source`, `datetime`). -/
structure NewsItem where
  headline : Option String := none
  url : Option String := none
  source : Option String := none
  datetime : Option ℤ := none
deriving DecidableEq, Repr

/-- Outcome of the Finnhub HTTP request inside `get_company_news`:
a 200 response carrying a JSON list, a non-200 status, or a transport
exception raised by `requests.get`. -/
inductive NewsHttp where
  | ok200 (data : List NewsItem)
  | non200
  | transportError
deriving DecidableEq, Repr

/-- Python truthiness of an optional string: `None` and `""` are falsy. -/
def truthyStr : Option String → Bool
  | none => false
  | some s => !(s == "")

/-- Python truthiness of an optional number: `None`, `0` and `0.0` are falsy;
returns the value when truthy. -/
def truthyQ : Option ℚ → Option ℚ
  | none => none
  | some q => if q = 0 then none else some q

/-- `get_company_news` (app.py lines 118-133): an empty API key returns `[]`
before any network request is made; a 200 response is filtered to the items
with truthy `headline` and `url`; a non-200 status or a transport exception
yields `[]`. The `resp` argument stands for whatever the network would have
answered had a request been sent. -/
def get_company_news (symbol api_key : String) (resp : NewsHttp) : List NewsItem :=
  if api_key = "" then []
  else
    match resp with
    | .ok200 data => data.filter (fun item => truthyStr item.headline && truthyStr item.url)
    | .non200 => []
    | .transportError => []

/-- The rational displayed by a Python `:.2f` format: the value rounded to two
decimal places. (Python rounds ties to even; `round` rounds ties up. The
claims involve no ties, so the two agree everywhere they are evaluated.) -/
def disp2 (q : ℚ) : ℚ := ((round (q * 100) : ℤ) : ℚ) / 100

/-- Daily-change computation (app.py lines 193-197): needs at least 2 closes;
`change = close[-1] - close[-2]`, `pct = change / close[-2] * 100`. -/
def dailyChange (closes : List ℚ) : Option (ℚ × ℚ) :=
  if closes.length ≥ 2 then
    let lastC := closes.getD (closes.length - 1) 0
    let prevC := closes.getD (closes.length - 2) 0
    let change := lastC - prevC
    some (change, change / prevC * 100)
  else
    none

/-- Logo URL resolution (app.py lines 146-150): prefer a truthy `logo_url`
field; otherwise strip the scheme from the website, take the part before the
first `/`, and build a clearbit URL when that domain is non-empty. -/
def resolveLogoUrl (info : CompanyInfo) : Option String :=
  let explicit := info.logo_url.getD ""
  if explicit ≠ "" then some explicit
  else
    let stripped := String.replace (String.replace (info.website.getD "") "https://" "") "http://" ""
    let domain := (stripped.splitOn "/").headD ""
    if domain ≠ "" then some ("https://logo.clearbit.com/" ++ domain) else none

/-- Value shown by one `st.metric` call in the metrics row:
`na` is the literal `"N/A"`; `money2 q` is `f"${q:,.2f}"`; `money0 q` is
`f"${q:,.0f}"`; `highLow h l` is the literal f-string `f"${h} / ${l}"`, in
which an absent value prints as Python's `None`. -/
inductive MetricVal where
  | na
  | money2 (q : ℚ)
  | money0 (q : ℚ)
  | highLow (high low : Option ℚ)
deriving DecidableEq, Repr

/-- One Streamlit output event emitted by the dashboard loop. -/
inductive Output where
  | warning (msg : String)
  | errorMsg (msg : String)
  | imageOut (url : String)
  | header (txt : String)
  | caption (txt : String)
  | chart (ticker : String)
  | metric (label : String) (v : MetricVal)
  | metricDelta (label : String) (value delta : ℚ)
  | expander (txt : String)
  | infoMsg (msg : String)
  | markdownOut (txt : String)
  | subheader (txt : String)
  | newsCard (headline url source : String) (timestamp : ℤ)
deriving DecidableEq, Repr

/-- Per-ticker fetch results for one render pass: the three cached fetches
(each may have raised), whether the logo HTTP fetch succeeded with status 200
and a decodable image, and the news HTTP outcome. -/
structure TickerData where
  info : Except String CompanyInfo
  hist : Except String (List ℚ)
  hist5d : Except String (List ℚ)
  logoOk : Bool := false
  newsResp : NewsHttp := .non200
deriving Repr

/-- Company header block (app.py lines 145-163): optional logo image, the
`shortName` header (ticker as fallback), and the sector/industry caption. -/
def headerOuts (ticker : String) (info : CompanyInfo) (logoOk : Bool) : List Output :=
  let logoPart : List Output :=
    match resolveLogoUrl info with
    | some url => if logoOk then [.imageOut url] else []
    | none => []
  let sec := info.sector.getD "N/A"
  let ind := info.industry.getD "N/A"
  logoPart ++ [.header (info.shortName.getD ticker), .caption (sec ++ " | " ++ ind)]

/-- The Current Price metric value (app.py line 189):
`f"${price:,.2f}" if price else "N/A"`. -/
def priceValOf (info : CompanyInfo) : MetricVal :=
  match truthyQ info.currentPrice with
  | some p => .money2 p
  | none => .na

/-- The Market Cap metric value (app.py line 190):
`f"${cap:,.0f}" if cap else "N/A"`. -/
def capValOf (info : CompanyInfo) : MetricVal :=
  match truthyQ info.marketCap with
  | some c => .money0 c
  | none => .na

/-- Metrics columns 1-3 (app.py lines 185-191): current price and market cap
fall back to `"N/A"` when falsy; the 52-week high/low string is interpolated
directly with no fallback. -/
def metricsOuts (info : CompanyInfo) : List Output :=
  [ .metric "Current Price" (priceValOf info),
    .metric "Market Cap" (capValOf info),
    .metric "52w High / Low" (.highLow info.fiftyTwoWeekHigh info.fiftyTwoWeekLow) ]

/-- Metrics column 4 (app.py lines 192-197): the Daily Change metric, shown
only when the 5-day history has at least 2 rows; values as displayed at two
decimals. -/
def changeOuts (h5 : List ℚ) : List Output :=
  match dailyChange h5 with
  | some cp => [.metricDelta "Daily Change" (disp2 cp.1) (disp2 cp.2)]
  | none => []

/-- Python `str.strip()`: drop leading and trailing whitespace. Written with
structural list recursion so that proofs can evaluate it on literals. -/
def pyStrip (s : String) : String :=
  ⟨((s.data.dropWhile Char.isWhitespace).reverse.dropWhile Char.isWhitespace).reverse⟩

/-- Company summary block (app.py lines 200-222): `info.get` supplies the
default text when the field is absent; the expander is shown when the summary
string is truthy with a truthy strip (`if summary and summary.strip():`),
otherwise an `st.info` placeholder. -/
def summaryOuts (info : CompanyInfo) : List Output :=
  let summary := info.longBusinessSummary.getD "No company description available."
  if summary ≠ "" ∧ pyStrip summary ≠ "" then [.expander summary]
  else [.infoMsg "No company description available."]

/-- Renders one news item as its markdown card (app.py lines 234-240);
`dict.get` fallbacks are `None` for headline/url, `"Unknown"` for source and
timestamp `0`. The date formatting is abstracted to the raw timestamp. -/
def newsCardOf (a : NewsItem) : Output :=
  .newsCard (a.headline.getD "None") (a.url.getD "None") (a.source.getD "Unknown") (a.datetime.getD 0)

/-- News section (app.py lines 226-243): subheader, then either the API-key
prompt (empty key), up to 5 news cards, or the no-recent-news notice. -/
def newsOuts (api_key ticker : String) (resp : NewsHttp) : List Output :=
  let headerPart := [Output.subheader ("📰 " ++ ticker ++ " Recent News")]
  if api_key = "" then
    headerPart ++ [.infoMsg "Enter your Finnhub API key in the sidebar to enable company news."]
  else
    let news := get_company_news ticker api_key resp
    if news ≠ [] then headerPart ++ (news.take 5).map newsCardOf
    else headerPart ++ [.infoMsg "No recent news available."]

/-- The closing `<hr>` markdown of each ticker section (app.py line 245). -/
def hrLine : String := "<hr style=\x27border: 1px solid #00f5ff; opacity: 0.3;\x27>"

/-- One pass of the loop body for a ticker (app.py lines 137-245), before the
`except` handler: the outputs emitted and the exception that escaped, if any.
Output already written when an exception is raised stays on the page, so it is
kept in the first component. -/
def renderTickerCore (api_key ticker : String) (d : TickerData) : List Output × Option String :=
  match d.info with
  | .error e => ([], some e)
  | .ok info =>
    match d.hist with
    | .error e => ([], some e)
    | .ok hist =>
      if hist.isEmpty then
        ([.warning ("No data available for " ++ ticker)], none)
      else
        let pre := headerOuts ticker info d.logoOk ++ [.chart ticker] ++ metricsOuts info
        match d.hist5d with
        | .error e => (pre, some e)
        | .ok h5 =>
          (pre ++ changeOuts h5 ++ summaryOuts info ++ [.markdownOut "---"]
            ++ newsOuts api_key ticker d.newsResp ++ [.markdownOut hrLine],
           none)

/-- One full iteration of the ticker loop including the `except` handler
(app.py lines 136-247): an escaped exception is rendered as the inline
`st.error` message naming the ticker and the exception text. -/
def renderTicker (api_key ticker : String) (d : TickerData) : List Output :=
  match renderTickerCore api_key ticker d with
  | (outs, some e) => outs ++ [.errorMsg ("Could not load info for " ++ ticker ++ ": " ++ e)]
  | (outs, none) => outs

/-- The whole dashboard loop: tickers processed in list order, outputs
concatenated. -/
def renderDashboard (api_key : String) : List (String × TickerData) → List Output
  | [] => []
  | (t, d) :: rest => renderTicker api_key t d ++ renderDashboard api_key rest

/-- Auto-refresh setup (app.py lines 102-107). The state is the session's
`last_refresh` timestamp (`none` when the key is absent). Returns the new
state and whether `st.rerun()` fires on this render cycle. -/
def autoRefresh (now refresh_rate : ℚ) (last_refresh : Option ℚ) : Option ℚ × Bool :=
  match last_refresh with
  | none => (some now, false)
  | some t => if now - t > refresh_rate then (some now, true) else (some t, false)

/-! ### Helper lemmas about the shape of each rendered section -/

lemma renderTicker_ok (api_key t : String) (d : TickerData) (info : CompanyInfo)
    (hist h5 : List ℚ) (h1 : d.info = .ok info) (h2 : d.hist = .ok hist)
    (h3 : hist ≠ []) (h4 : d.hist5d = .ok h5) :
    renderTicker api_key t d =
      headerOuts t info d.logoOk ++ [.chart t] ++ metricsOuts info
        ++ changeOuts h5 ++ summaryOuts info ++ [.markdownOut "---"]
        ++ newsOuts api_key t d.newsResp ++ [.markdownOut hrLine] := by
  unfold renderTicker renderTickerCore
  rw [h1, h2, h4]
  have he : hist.isEmpty = false := by
    cases hist with
    | nil => exact absurd rfl h3
    | cons a l => rfl
  simp [he]

lemma renderDashboard_append (api_key : String) (l1 l2 : List (String × TickerData)) :
    renderDashboard api_key (l1 ++ l2)
      = renderDashboard api_key l1 ++ renderDashboard api_key l2 := by
  induction l1 with
  | nil => simp [renderDashboard]
  | cons p rest ih =>
    cases p
    simp [renderDashboard, ih]

lemma mem_headerOuts {x : Output} {t : String} {info : CompanyInfo} {b : Bool}
    (hx : x ∈ headerOuts t info b) :
    (∃ u, x = .imageOut u) ∨ (∃ s, x = .header s) ∨ (∃ s, x = .caption s) := by
  simp only [headerOuts] at hx
  rcases h : resolveLogoUrl info with _ | url <;> rw [h] at hx <;> cases b <;>
    simp at hx <;> aesop

lemma mem_metricsOuts {x : Output} {info : CompanyInfo} (hx : x ∈ metricsOuts info) :
    x = .metric "Current Price" (priceValOf info)
    ∨ x = .metric "Market Cap" (capValOf info)
    ∨ x = .metric "52w High / Low" (.highLow info.fiftyTwoWeekHigh info.fiftyTwoWeekLow) := by
  simpa [metricsOuts] using hx

lemma mem_changeOuts {x : Output} {h5 : List ℚ} (hx : x ∈ changeOuts h5) :
    ∃ cp, dailyChange h5 = some cp
      ∧ x = .metricDelta "Daily Change" (disp2 cp.1) (disp2 cp.2) := by
  unfold changeOuts at hx
  rcases h : dailyChange h5 with _ | cp <;> rw [h] at hx <;> simp at hx
  exact ⟨cp, rfl, hx⟩

lemma changeOuts_short {h5 : List ℚ} (hshort : h5.length < 2) : changeOuts h5 = [] := by
  unfold changeOuts dailyChange
  rw [if_neg (by omega)]

lemma mem_summaryOuts {x : Output} {info : CompanyInfo} (hx : x ∈ summaryOuts info) :
    (∃ s, x = .expander s) ∨ x = .infoMsg "No company description available." := by
  simp only [summaryOuts] at hx
  split at hx <;> simp at hx <;> aesop

lemma mem_newsOuts {x : Output} {k t : String} {r : NewsHttp} (hx : x ∈ newsOuts k t r) :
    x = .subheader ("📰 " ++ t ++ " Recent News")
    ∨ x = .infoMsg "Enter your Finnhub API key in the sidebar to enable company news."
    ∨ x = .infoMsg "No recent news available."
    ∨ ∃ a, x = newsCardOf a := by
  simp only [newsOuts] at hx
  split at hx
  · simp at hx
    aesop
  · split at hx <;> simp at hx
    · rcases hx with h1 | h1
      · exact Or.inl h1
      · rcases List.mem_map.mp (List.mem_of_mem_take h1) with ⟨a, _, ha⟩
        exact Or.inr (Or.inr (Or.inr ⟨a, ha.symm⟩))
    · aesop

lemma newsOuts_nokey (t : String) (r : NewsHttp) :
    newsOuts "" t r =
      [.subheader ("📰 " ++ t ++ " Recent News"),
       .infoMsg "Enter your Finnhub API key in the sidebar to enable company news."] := by
  simp [newsOuts]

lemma mem_sections {x : Output} (api_key t : String) (d : TickerData) (info : CompanyInfo)
    (hist h5 : List ℚ) (h1 : d.info = .ok info) (h2 : d.hist = .ok hist)
    (h3 : hist ≠ []) (h4 : d.hist5d = .ok h5) (hx : x ∈ renderTicker api_key t d) :
    x ∈ headerOuts t info d.logoOk
    ∨ x = .chart t
    ∨ x ∈ metricsOuts info
    ∨ x ∈ changeOuts h5
    ∨ x ∈ summaryOuts info
    ∨ x = .markdownOut "---"
    ∨ x ∈ newsOuts api_key t d.newsResp
    ∨ x = .markdownOut hrLine := by
  rw [renderTicker_ok api_key t d info hist h5 h1 h2 h3 h4] at hx
  simp only [List.append_assoc, List.mem_append, List.mem_cons, List.mem_singleton,
    List.not_mem_nil, or_false] at hx
  tauto

lemma errorMsg_not_mem (api_key t : String) (d : TickerData) (info : CompanyInfo)
    (hist h5 : List ℚ) (h1 : d.info = .ok info) (h2 : d.hist = .ok hist)
    (h3 : hist ≠ []) (h4 : d.hist5d = .ok h5) (m : String) :
    Output.errorMsg m ∉ renderTicker api_key t d := by
  intro hmem
  rcases mem_sections api_key t d info hist h5 h1 h2 h3 h4 hmem with
    h | h | h | h | h | h | h | h
  · rcases mem_headerOuts h with ⟨u, he⟩ | ⟨s, he⟩ | ⟨s, he⟩ <;> exact absurd he (by simp)
  · exact absurd h (by simp)
  · rcases mem_metricsOuts h with he | he | he <;> exact absurd he (by simp)
  · rcases mem_changeOuts h with ⟨cp, _, he⟩
    exact absurd he (by simp)
  · rcases mem_summaryOuts h with ⟨s, he⟩ | he <;> exact absurd he (by simp)
  · exact absurd h (by simp)
  · rcases mem_newsOuts h with he | he | he | ⟨a, he⟩ <;>
      exact absurd he (by simp [newsCardOf])
  · exact absurd h (by simp)

lemma metricDelta_not_mem_of_short (api_key t : String) (d : TickerData)
    (info : CompanyInfo) (hist h5 : List ℚ) (h1 : d.info = .ok info)
    (h2 : d.hist = .ok hist) (h3 : hist ≠ []) (h4 : d.hist5d = .ok h5)
    (hshort : h5.length < 2) (lab : String) (v δ : ℚ) :
    Output.metricDelta lab v δ ∉ renderTicker api_key t d := by
  intro hmem
  rcases mem_sections api_key t d info hist h5 h1 h2 h3 h4 hmem with
    h | h | h | h | h | h | h | h
  · rcases mem_headerOuts h with ⟨u, he⟩ | ⟨s, he⟩ | ⟨s, he⟩ <;> exact absurd he (by simp)
  · exact absurd h (by simp)
  · rcases mem_metricsOuts h with he | he | he <;> exact absurd he (by simp)
  · rw [changeOuts_short hshort] at h
    exact absurd h (List.not_mem_nil _)
  · rcases mem_summaryOuts h with ⟨s, he⟩ | he <;> exact absurd he (by simp)
  · exact absurd h (by simp)
  · rcases mem_newsOuts h with he | he | he | ⟨a, he⟩ <;>
      exact absurd he (by simp [newsCardOf])
  · exact absurd h (by simp)

lemma newsCard_not_mem_nokey (t : String) (d : TickerData) (info : CompanyInfo)
    (hist h5 : List ℚ) (h1 : d.info = .ok info) (h2 : d.hist = .ok hist)
    (h3 : hist ≠ []) (h4 : d.hist5d = .ok h5) (hl u s : String) (ts : ℤ) :
    Output.newsCard hl u s ts ∉ renderTicker "" t d := by
  intro hmem
  rcases mem_sections "" t d info hist h5 h1 h2 h3 h4 hmem with
    h | h | h | h | h | h | h | h
  · rcases mem_headerOuts h with ⟨u1, he⟩ | ⟨s1, he⟩ | ⟨s1, he⟩ <;> exact absurd he (by simp)
  · exact absurd h (by simp)
  · rcases mem_metricsOuts h with he | he | he <;> exact absurd he (by simp)
  · rcases mem_changeOuts h with ⟨cp, _, he⟩
    exact absurd he (by simp)
  · rcases mem_summaryOuts h with ⟨s1, he⟩ | he <;> exact absurd he (by simp)
  · exact absurd h (by simp)
  · rw [newsOuts_nokey] at h
    simp at h
  · exact absurd h (by simp)

lemma metric_mem (api_key t : String) (d : TickerData) (info : CompanyInfo)
    (hist h5 : List ℚ) (h1 : d.info = .ok info) (h2 : d.hist = .ok hist)
    (h3 : hist ≠ []) (h4 : d.hist5d = .ok h5) (lab : String) (v : MetricVal)
    (hmem : Output.metric lab v ∈ renderTicker api_key t d) :
    Output.metric lab v = .metric "Current Price" (priceValOf info)
    ∨ Output.metric lab v = .metric "Market Cap" (capValOf info)
    ∨ Output.metric lab v
        = .metric "52w High / Low" (.highLow info.fiftyTwoWeekHigh info.fiftyTwoWeekLow) := by
  rcases mem_sections api_key t d info hist h5 h1 h2 h3 h4 hmem with
    h | h | h | h | h | h | h | h
  · rcases mem_headerOuts h with ⟨u, he⟩ | ⟨s, he⟩ | ⟨s, he⟩ <;> exact absurd he (by simp)
  · exact absurd h (by simp)
  · exact mem_metricsOuts h
  · rcases mem_changeOuts h with ⟨cp, _, he⟩
    exact absurd he (by simp)
  · rcases mem_summaryOuts h with ⟨s, he⟩ | he <;> exact absurd he (by simp)
  · exact absurd h (by simp)
  · rcases mem_newsOuts h with he | he | he | ⟨a, he⟩ <;>
      exact absurd he (by simp [newsCardOf])
  · exact absurd h (by simp)

/-! ### Concrete data used by witnesses and counterexamples -/

/-- A fully populated company record (witness data). -/
def infoEx : CompanyInfo :=
  { shortName := some "Apple Inc.", sector := some "Technology",
    industry := some "Consumer Electronics", currentPrice := some 150,
    marketCap := some 2500000, fiftyTwoWeekHigh := some 199,
    fiftyTwoWeekLow := some 124,
    longBusinessSummary := some "Designs and sells smartphones.",
    logo_url := some "https://logo.example/apple.png" }

/-- Witness data: both fetches succeed, 5-day history has 5 closes. -/
def dEx : TickerData :=
  { info := .ok infoEx, hist := .ok [100, 101],
    hist5d := .ok [100, 102, 101, 105, 103] }

/-- Witness data: 5-day history has a single close. -/
def dShort : TickerData :=
  { info := .ok infoEx, hist := .ok [100, 101], hist5d := .ok [100] }

/-- Witness data: the price-history fetch returns an empty table. -/
def dEmpty : TickerData :=
  { info := .ok {}, hist := .ok [], hist5d := .ok [] }

/-- Witness data: the company-info fetch raised an exception. -/
def dErr : TickerData :=
  { info := .error "boom", hist := .ok [], hist5d := .ok [] }

/-! ### Claim theorems -/

/-- C9: on a render cycle with last refresh `T` and interval `I`, the
scheduler fires a refresh and resets the timestamp to the current time
exactly when the elapsed time strictly exceeds `I`; otherwise nothing fires
and the timestamp is unchanged; in particular at time `T + I + 1` exactly one
refresh fires. -/
theorem refresh_scheduler_correct (T I now : ℚ) :
    (now - T > I → autoRefresh now I (some T) = (some now, true))
    ∧ (now - T ≤ I → autoRefresh now I (some T) = (some T, false))
    ∧ autoRefresh (T + I + 1) I (some T) = (some (T + I + 1), true) := by
  refine ⟨fun h => ?_, fun h => ?_, ?_⟩
  · simp only [autoRefresh]
    rw [if_pos h]
  · simp only [autoRefresh]
    rw [if_neg (not_lt.mpr h)]
  · simp only [autoRefresh]
    rw [if_pos (by linarith)]

/-- Witness for C9 at `T = 0`, `I = 60`, with `now = 61` (fires) and
`now = 30` (does not fire). -/
theorem refresh_scheduler_correct_witness :
    autoRefresh 61 60 (some 0) = (some 61, true)
    ∧ autoRefresh 30 60 (some 0) = (some 0, false) :=
  ⟨(refresh_scheduler_correct 0 60 61).1 (by norm_num),
   (refresh_scheduler_correct 0 60 30).2.1 (by norm_num)⟩

/-- C6: with a non-empty API key, a non-200 status or a transport exception
makes `get_company_news` return the empty list, raising nothing. -/
theorem news_fetch_failure_empty (symbol api_key : String) (hk : api_key ≠ "") :
    get_company_news symbol api_key .non200 = []
    ∧ get_company_news symbol api_key .transportError = [] := by
  constructor <;> simp [get_company_news, hk]

/-- Witness for C6 at a concrete symbol and key. -/
theorem news_fetch_failure_empty_witness :
    get_company_news "AAPL" "secretkey" .non200 = []
    ∧ get_company_news "AAPL" "secretkey" .transportError = [] :=
  news_fetch_failure_empty "AAPL" "secretkey" (by decide)

/-- C3: a ticker whose price-history fetch returns an empty result renders
exactly one warning naming the ticker and nothing else (no chart, metrics,
summary or news), and the surrounding dashboard loop still renders the other
tickers on both sides of it. -/
theorem empty_history_warns_and_skips (api_key t : String) (d : TickerData)
    (info : CompanyInfo) (pre post : List (String × TickerData))
    (h1 : d.info = .ok info) (h2 : d.hist = .ok []) :
    renderTicker api_key t d = [.warning ("No data available for " ++ t)]
    ∧ renderDashboard api_key (pre ++ (t, d) :: post)
      = renderDashboard api_key pre
          ++ [.warning ("No data available for " ++ t)]
          ++ renderDashboard api_key post := by
  have hrt : renderTicker api_key t d = [.warning ("No data available for " ++ t)] := by
    unfold renderTicker renderTickerCore
    rw [h1, h2]
    simp
  refine ⟨hrt, ?_⟩
  rw [renderDashboard_append]
  simp [renderDashboard, hrt]

/-- Witness for C3: an empty history for FAKE123 between two other tickers. -/
theorem empty_history_warns_and_skips_witness :
    renderTicker "" "FAKE123" dEmpty
      = [.warning ("No data available for " ++ "FAKE123")]
    ∧ renderDashboard "" ([("AAPL", dEx)] ++ ("FAKE123", dEmpty) :: [("NVDA", dEx)])
      = renderDashboard "" [("AAPL", dEx)]
          ++ [.warning ("No data available for " ++ "FAKE123")]
          ++ renderDashboard "" [("NVDA", dEx)] :=
  empty_history_warns_and_skips "" "FAKE123" dEmpty {} [("AAPL", dEx)] [("NVDA", dEx)] rfl rfl

/-- C4: an exception during a ticker's steps is caught at the ticker
boundary: the ticker's section ends with an inline error message whose text
names the ticker and the exception, the output produced before the exception
stays, and the dashboard output for the tickers before and after it is
exactly what it would be on its own. -/
theorem ticker_exception_isolated (api_key t e : String) (d : TickerData)
    (pre post : List (String × TickerData))
    (hexc : (renderTickerCore api_key t d).2 = some e) :
    renderTicker api_key t d
      = (renderTickerCore api_key t d).1
          ++ [.errorMsg ("Could not load info for " ++ t ++ ": " ++ e)]
    ∧ renderDashboard api_key (pre ++ (t, d) :: post)
      = renderDashboard api_key pre ++ renderTicker api_key t d
          ++ renderDashboard api_key post := by
  constructor
  · unfold renderTicker
    rcases hc : renderTickerCore api_key t d with ⟨outs, exc⟩
    rw [hc] at hexc
    simp at hexc
    subst hexc
    simp
  · rw [renderDashboard_append]
    simp [renderDashboard]

/-- Witness for C4: an info-fetch exception for TSLA between two healthy
tickers. -/
theorem ticker_exception_isolated_witness :
    renderTicker "" "TSLA" dErr
      = (renderTickerCore "" "TSLA" dErr).1
          ++ [.errorMsg ("Could not load info for " ++ "TSLA" ++ ": " ++ "boom")]
    ∧ renderDashboard "" ([("AAPL", dEx)] ++ ("TSLA", dErr) :: [("NVDA", dEx)])
      = renderDashboard "" [("AAPL", dEx)] ++ renderTicker "" "TSLA" dErr
          ++ renderDashboard "" [("NVDA", dEx)] :=
  ticker_exception_isolated "" "TSLA" "boom" dErr [("AAPL", dEx)] [("NVDA", dEx)] rfl

/-- C2: with fewer than 2 points in the 5-day history, no Daily Change
metric of any kind is rendered and no exception escapes (no error output). -/
theorem short_history_omits_daily_change (api_key t : String) (d : TickerData)
    (info : CompanyInfo) (hist h5 : List ℚ)
    (h1 : d.info = .ok info) (h2 : d.hist = .ok hist) (h3 : hist ≠ [])
    (h4 : d.hist5d = .ok h5) (hshort : h5.length < 2) :
    (∀ lab v δ, Output.metricDelta lab v δ ∉ renderTicker api_key t d)
    ∧ (∀ m, Output.errorMsg m ∉ renderTicker api_key t d) :=
  ⟨fun lab v δ =>
      metricDelta_not_mem_of_short api_key t d info hist h5 h1 h2 h3 h4 hshort lab v δ,
   fun m => errorMsg_not_mem api_key t d info hist h5 h1 h2 h3 h4 m⟩

/-- Witness for C2 on a one-point 5-day history. -/
theorem short_history_omits_daily_change_witness :
    Output.metricDelta "Daily Change" 0 0 ∉ renderTicker "" "AAPL" dShort
    ∧ Output.errorMsg "err" ∉ renderTicker "" "AAPL" dShort :=
  ⟨(short_history_omits_daily_change "" "AAPL" dShort infoEx [100, 101] [100]
      rfl rfl (List.cons_ne_nil _ _) rfl (by norm_num)).1 "Daily Change" 0 0,
   (short_history_omits_daily_change "" "AAPL" dShort infoEx [100, 101] [100]
      rfl rfl (List.cons_ne_nil _ _) rfl (by norm_num)).2 "err"⟩

/-- C5: with an empty news API key the news section shows the key prompt, no
news card is rendered, no error is raised, and `get_company_news` called with
an empty key returns `[]` whatever the network would have answered (so no
request is performed). -/
theorem no_api_key_news_prompt (t : String) (d : TickerData) (info : CompanyInfo)
    (hist h5 : List ℚ) (h1 : d.info = .ok info) (h2 : d.hist = .ok hist)
    (h3 : hist ≠ []) (h4 : d.hist5d = .ok h5) :
    Output.infoMsg "Enter your Finnhub API key in the sidebar to enable company news."
        ∈ renderTicker "" t d
    ∧ (∀ hl u s ts, Output.newsCard hl u s ts ∉ renderTicker "" t d)
    ∧ (∀ m, Output.errorMsg m ∉ renderTicker "" t d)
    ∧ (∀ (sym : String) (resp : NewsHttp), get_company_news sym "" resp = []) := by
  refine ⟨?_,
    fun hl u s ts => newsCard_not_mem_nokey t d info hist h5 h1 h2 h3 h4 hl u s ts,
    fun m => errorMsg_not_mem "" t d info hist h5 h1 h2 h3 h4 m,
    fun sym resp => by simp [get_company_news]⟩
  rw [renderTicker_ok "" t d info hist h5 h1 h2 h3 h4, newsOuts_nokey]
  simp

/-- Witness for C5 on a healthy ticker with an empty key and a network that
would have answered with one valid item. -/
theorem no_api_key_news_prompt_witness :
    Output.infoMsg "Enter your Finnhub API key in the sidebar to enable company news."
        ∈ renderTicker "" "AAPL" dEx
    ∧ Output.newsCard "Big news" "https://news.example/a" "Example" 0
        ∉ renderTicker "" "AAPL" dEx
    ∧ Output.errorMsg "err" ∉ renderTicker "" "AAPL" dEx
    ∧ get_company_news "AAPL" ""
        (.ok200 [{ headline := some "Big news", url := some "https://news.example/a" }]) = [] :=
  ⟨(no_api_key_news_prompt "AAPL" dEx infoEx [100, 101] [100, 102, 101, 105, 103]
      rfl rfl (List.cons_ne_nil _ _) rfl).1,
   (no_api_key_news_prompt "AAPL" dEx infoEx [100, 101] [100, 102, 101, 105, 103]
      rfl rfl (List.cons_ne_nil _ _) rfl).2.1 "Big news" "https://news.example/a" "Example" 0,
   (no_api_key_news_prompt "AAPL" dEx infoEx [100, 101] [100, 102, 101, 105, 103]
      rfl rfl (List.cons_ne_nil _ _) rfl).2.2.1 "err",
   (no_api_key_news_prompt "AAPL" dEx infoEx [100, 101] [100, 102, 101, 105, 103]
      rfl rfl (List.cons_ne_nil _ _) rfl).2.2.2 "AAPL" _⟩

/-- C1: with at least 2 points in the 5-day history the Daily Change metric
shows (at two displayed decimals) the last close minus the second-to-last
close and that change over the second-to-last close times 100; on the spec's
example closes `[100, 102, 101, 105, 103]` the change is `-2.00` and the
percent `-1.90`. -/
theorem daily_change_metric (api_key t : String) (d : TickerData) (info : CompanyInfo)
    (hist h5 : List ℚ)
    (h1 : d.info = .ok info) (h2 : d.hist = .ok hist) (h3 : hist ≠ [])
    (h4 : d.hist5d = .ok h5) (hlen : 2 ≤ h5.length)
    (hprev : h5.getD (h5.length - 2) 0 ≠ 0) :
    Output.metricDelta "Daily Change"
        (disp2 (h5.getD (h5.length - 1) 0 - h5.getD (h5.length - 2) 0))
        (disp2 ((h5.getD (h5.length - 1) 0 - h5.getD (h5.length - 2) 0)
            / h5.getD (h5.length - 2) 0 * 100)) ∈ renderTicker api_key t d
    ∧ dailyChange [100, 102, 101, 105, 103]
        = some (103 - 105, (103 - 105) / 105 * 100)
    ∧ disp2 (103 - 105) = -2
    ∧ disp2 ((103 - 105) / 105 * 100) = -19/10 := by
  refine ⟨?_, ?_, ?_, ?_⟩
  · rw [renderTicker_ok api_key t d info hist h5 h1 h2 h3 h4]
    have hc : changeOuts h5
        = [.metricDelta "Daily Change"
            (disp2 (h5.getD (h5.length - 1) 0 - h5.getD (h5.length - 2) 0))
            (disp2 ((h5.getD (h5.length - 1) 0 - h5.getD (h5.length - 2) 0)
                / h5.getD (h5.length - 2) 0 * 100))] := by
      simp only [changeOuts, dailyChange]
      rw [if_pos hlen]
    rw [hc]
    simp
  · norm_num [dailyChange]
  · norm_num [disp2, round_eq]
  · norm_num [disp2, round_eq]

/-- Witness for C1 on the spec's example 5-day closes. -/
theorem daily_change_metric_witness :
    Output.metricDelta "Daily Change" (-2) (-19/10) ∈ renderTicker "" "AAPL" dEx := by
  have h := (daily_change_metric "" "AAPL" dEx infoEx [100, 101] [100, 102, 101, 105, 103]
      rfl rfl (List.cons_ne_nil _ _) rfl (by norm_num) (by norm_num)).1
  convert h using 2 <;> norm_num [disp2, round_eq]

/-- C10 (implicit): a current price or market cap equal to 0 is falsy in
Python, so the metric shows "N/A" and no dollar-formatted value. -/
theorem zero_price_cap_na (api_key t : String) (d : TickerData) (info : CompanyInfo)
    (hist h5 : List ℚ)
    (h1 : d.info = .ok info) (h2 : d.hist = .ok hist) (h3 : hist ≠ [])
    (h4 : d.hist5d = .ok h5)
    (hp : info.currentPrice = some 0) (hc : info.marketCap = some 0) :
    Output.metric "Current Price" .na ∈ renderTicker api_key t d
    ∧ Output.metric "Market Cap" .na ∈ renderTicker api_key t d
    ∧ (∀ q, Output.metric "Current Price" (.money2 q) ∉ renderTicker api_key t d)
    ∧ (∀ q, Output.metric "Market Cap" (.money0 q) ∉ renderTicker api_key t d) := by
  have hpv : priceValOf info = .na := by simp [priceValOf, truthyQ, hp]
  have hcv : capValOf info = .na := by simp [capValOf, truthyQ, hc]
  refine ⟨?_, ?_, fun q hmem => ?_, fun q hmem => ?_⟩
  · rw [renderTicker_ok api_key t d info hist h5 h1 h2 h3 h4]
    simp [metricsOuts, hpv]
  · rw [renderTicker_ok api_key t d info hist h5 h1 h2 h3 h4]
    simp [metricsOuts, hcv]
  · rcases metric_mem api_key t d info hist h5 h1 h2 h3 h4 _ _ hmem with he | he | he
    · rw [hpv] at he
      exact absurd he (by simp)
    · exact absurd he (by simp)
    · exact absurd he (by simp)
  · rcases metric_mem api_key t d info hist h5 h1 h2 h3 h4 _ _ hmem with he | he | he
    · exact absurd he (by simp)
    · rw [hcv] at he
      exact absurd he (by simp)
    · exact absurd he (by simp)

/-- Witness data for C10: price and market cap present but exactly 0. -/
def infoZero : CompanyInfo :=
  { shortName := some "Zero Corp", currentPrice := some 0, marketCap := some 0,
    longBusinessSummary := some "A company.",
    logo_url := some "https://logo.example/z.png" }

/-- Witness data for C10. -/
def dZero : TickerData :=
  { info := .ok infoZero, hist := .ok [1], hist5d := .ok [1] }

/-- Witness for C10. -/
theorem zero_price_cap_na_witness :
    Output.metric "Current Price" MetricVal.na ∈ renderTicker "" "ZERO" dZero
    ∧ Output.metric "Market Cap" MetricVal.na ∈ renderTicker "" "ZERO" dZero
    ∧ Output.metric "Current Price" (MetricVal.money2 0) ∉ renderTicker "" "ZERO" dZero
    ∧ Output.metric "Market Cap" (MetricVal.money0 0) ∉ renderTicker "" "ZERO" dZero := by
  have h := zero_price_cap_na "" "ZERO" dZero infoZero [1] [1]
    rfl rfl (List.cons_ne_nil _ _) rfl rfl rfl
  exact ⟨h.1, h.2.1, h.2.2.1 0, h.2.2.2 0⟩

/-- Company record with every optional metric field missing (52-week bounds
included), used against C7. -/
def infoMissing : CompanyInfo :=
  { shortName := some "Example Corp",
    longBusinessSummary := some "A company.",
    logo_url := some "https://logo.example/x.png" }

/-- Ticker data built on `infoMissing`. -/
def dMissing : TickerData :=
  { info := .ok infoMissing, hist := .ok [1], hist5d := .ok [1] }

/-- Counterexample to C7: with the 52-week high/low missing the metric is
not the "N/A" placeholder; it is the direct interpolation of the raw values,
i.e. the string `"$None / $None"`. -/
theorem high_low_metric_counterexample :
    Output.metric "52w High / Low" (MetricVal.highLow none none)
        ∈ renderTicker "k" "EX" dMissing
    ∧ Output.metric "52w High / Low" MetricVal.na ∉ renderTicker "k" "EX" dMissing := by
  constructor
  · rw [renderTicker_ok "k" "EX" dMissing infoMissing [1] [1]
      rfl rfl (List.cons_ne_nil _ _) rfl]
    simp [metricsOuts, infoMissing]
  · intro hmem
    rcases metric_mem "k" "EX" dMissing infoMissing [1] [1]
        rfl rfl (List.cons_ne_nil _ _) rfl _ _ hmem with he | he | he
    · exact absurd he (by simp)
    · exact absurd he (by simp)
    · exact absurd he (by simp [infoMissing])

/-- C7 as amended: a missing current price or market cap renders as "N/A";
the 52-week high/low metric is always the direct interpolation of the raw
optional values (so `"$None / $None"` when they are missing) and never the
"N/A" placeholder. -/
theorem metrics_placeholder_amended (api_key t : String) (d : TickerData)
    (info : CompanyInfo) (hist h5 : List ℚ)
    (h1 : d.info = .ok info) (h2 : d.hist = .ok hist) (h3 : hist ≠ [])
    (h4 : d.hist5d = .ok h5)
    (hp : info.currentPrice = none) (hc : info.marketCap = none) :
    Output.metric "Current Price" .na ∈ renderTicker api_key t d
    ∧ Output.metric "Market Cap" .na ∈ renderTicker api_key t d
    ∧ Output.metric "52w High / Low"
        (.highLow info.fiftyTwoWeekHigh info.fiftyTwoWeekLow) ∈ renderTicker api_key t d
    ∧ Output.metric "52w High / Low" MetricVal.na ∉ renderTicker api_key t d := by
  have hpv : priceValOf info = .na := by simp [priceValOf, truthyQ, hp]
  have hcv : capValOf info = .na := by simp [capValOf, truthyQ, hc]
  refine ⟨?_, ?_, ?_, fun hmem => ?_⟩
  · rw [renderTicker_ok api_key t d info hist h5 h1 h2 h3 h4]
    simp [metricsOuts, hpv]
  · rw [renderTicker_ok api_key t d info hist h5 h1 h2 h3 h4]
    simp [metricsOuts, hcv]
  · rw [renderTicker_ok api_key t d info hist h5 h1 h2 h3 h4]
    simp [metricsOuts]
  · rcases metric_mem api_key t d info hist h5 h1 h2 h3 h4 _ _ hmem with he | he | he
    · exact absurd he (by simp)
    · exact absurd he (by simp)
    · exact absurd he (by simp)

/-- Witness for the amended C7 on `dMissing`. -/
theorem metrics_placeholder_amended_witness :
    Output.metric "Current Price" MetricVal.na ∈ renderTicker "k" "EX" dMissing
    ∧ Output.metric "Market Cap" MetricVal.na ∈ renderTicker "k" "EX" dMissing
    ∧ Output.metric "52w High / Low" (MetricVal.highLow none none)
        ∈ renderTicker "k" "EX" dMissing
    ∧ Output.metric "52w High / Low" MetricVal.na ∉ renderTicker "k" "EX" dMissing := by
  have h := metrics_placeholder_amended "k" "EX" dMissing infoMissing [1] [1]
    rfl rfl (List.cons_ne_nil _ _) rfl rfl rfl
  simpa [infoMissing] using h

/-- Company record with no `longBusinessSummary` key at all, used against
C8. -/
def infoNoSum : CompanyInfo :=
  { shortName := some "Example Corp", logo_url := some "https://logo.example/x.png" }

/-- Ticker data built on `infoNoSum`. -/
def dNoSum : TickerData :=
  { info := .ok infoNoSum, hist := .ok [1], hist5d := .ok [1] }

/-- Counterexample to C8: with the summary absent, the `dict.get` default
text is non-blank, so the expander (the summary display path) is shown with
that default text; the `st.info` placeholder notice is not shown. -/
theorem summary_absent_counterexample :
    Output.expander "No company description available."
        ∈ renderTicker "k" "EX" dNoSum
    ∧ Output.infoMsg "No company description available."
        ∉ renderTicker "k" "EX" dNoSum := by
  have hs : summaryOuts infoNoSum
      = [.expander "No company description available."] := by
    simp only [summaryOuts, infoNoSum, Option.getD_none]
    rw [if_pos ⟨by decide, by decide⟩]
  constructor
  · rw [renderTicker_ok "k" "EX" dNoSum infoNoSum [1] [1]
      rfl rfl (List.cons_ne_nil _ _) rfl, hs]
    simp
  · intro hmem
    rcases mem_sections "k" "EX" dNoSum infoNoSum [1] [1]
        rfl rfl (List.cons_ne_nil _ _) rfl hmem with h | h | h | h | h | h | h | h
    · rcases mem_headerOuts h with ⟨u, he⟩ | ⟨s, he⟩ | ⟨s, he⟩ <;> exact absurd he (by simp)
    · exact absurd h (by simp)
    · rcases mem_metricsOuts h with he | he | he <;> exact absurd he (by simp)
    · rcases mem_changeOuts h with ⟨cp, _, he⟩
      exact absurd he (by simp)
    · rw [hs] at h
      simp at h
    · exact absurd h (by simp)
    · rcases mem_newsOuts h with he | he | he | ⟨a, he⟩ <;>
        exact absurd he (by simp [newsCardOf])
    · exact absurd h (by simp)

/-- C8 as amended: the expander is shown with the summary text when the
summary is present and non-blank, and with the default text when the summary
is absent; the `st.info` placeholder notice appears only when the summary is
present but blank (empty or whitespace-only). -/
theorem summary_display_amended (api_key t : String) (d : TickerData)
    (info : CompanyInfo) (hist h5 : List ℚ)
    (h1 : d.info = .ok info) (h2 : d.hist = .ok hist) (h3 : hist ≠ [])
    (h4 : d.hist5d = .ok h5) :
    (∀ s, info.longBusinessSummary = some s → s ≠ "" → pyStrip s ≠ "" →
        Output.expander s ∈ renderTicker api_key t d)
    ∧ (info.longBusinessSummary = none →
        Output.expander "No company description available." ∈ renderTicker api_key t d
        ∧ Output.infoMsg "No company description available." ∉ renderTicker api_key t d)
    ∧ (∀ s, info.longBusinessSummary = some s → pyStrip s = "" →
        Output.infoMsg "No company description available." ∈ renderTicker api_key t d
        ∧ ∀ s2, Output.expander s2 ∉ renderTicker api_key t d) := by
  refine ⟨fun s hsum hne hstrip => ?_, fun hsum => ⟨?_, fun hmem => ?_⟩,
    fun s hsum hstrip => ⟨?_, fun s2 hmem => ?_⟩⟩
  · have hs : summaryOuts info = [.expander s] := by
      simp only [summaryOuts, hsum, Option.getD_some]
      rw [if_pos ⟨hne, hstrip⟩]
    rw [renderTicker_ok api_key t d info hist h5 h1 h2 h3 h4, hs]
    simp
  · have hs : summaryOuts info = [.expander "No company description available."] := by
      simp only [summaryOuts, hsum, Option.getD_none]
      rw [if_pos ⟨by decide, by decide⟩]
    rw [renderTicker_ok api_key t d info hist h5 h1 h2 h3 h4, hs]
    simp
  · have hs : summaryOuts info = [.expander "No company description available."] := by
      simp only [summaryOuts, hsum, Option.getD_none]
      rw [if_pos ⟨by decide, by decide⟩]
    rcases mem_sections api_key t d info hist h5 h1 h2 h3 h4 hmem with
      h | h | h | h | h | h | h | h
    · rcases mem_headerOuts h with ⟨u, he⟩ | ⟨s1, he⟩ | ⟨s1, he⟩ <;> exact absurd he (by simp)
    · exact absurd h (by simp)
    · rcases mem_metricsOuts h with he | he | he <;> exact absurd he (by simp)
    · rcases mem_changeOuts h with ⟨cp, _, he⟩
      exact absurd he (by simp)
    · rw [hs] at h
      simp at h
    · exact absurd h (by simp)
    · rcases mem_newsOuts h with he | he | he | ⟨a, he⟩ <;>
        exact absurd he (by simp [newsCardOf])
    · exact absurd h (by simp)
  · have hs : summaryOuts info = [.infoMsg "No company description available."] := by
      simp only [summaryOuts, hsum, Option.getD_some]
      rw [if_neg]
      intro hcond
      exact hcond.2 hstrip
    rw [renderTicker_ok api_key t d info hist h5 h1 h2 h3 h4, hs]
    simp
  · have hs : summaryOuts info = [.infoMsg "No company description available."] := by
      simp only [summaryOuts, hsum, Option.getD_some]
      rw [if_neg]
      intro hcond
      exact hcond.2 hstrip
    rcases mem_sections api_key t d info hist h5 h1 h2 h3 h4 hmem with
      h | h | h | h | h | h | h | h
    · rcases mem_headerOuts h with ⟨u, he⟩ | ⟨s1, he⟩ | ⟨s1, he⟩ <;> exact absurd he (by simp)
    · exact absurd h (by simp)
    · rcases mem_metricsOuts h with he | he | he <;> exact absurd he (by simp)
    · rcases mem_changeOuts h with ⟨cp, _, he⟩
      exact absurd he (by simp)
    · rw [hs] at h
      simp at h
    · exact absurd h (by simp)
    · rcases mem_newsOuts h with he | he | he | ⟨a, he⟩ <;>
        exact absurd he (by simp [newsCardOf])
    · exact absurd h (by simp)

/-- Witness for the amended C8: a present non-blank summary shows the
expander, and an absent summary shows the expander with the default text. -/
theorem summary_display_amended_witness :
    Output.expander "Designs and sells smartphones." ∈ renderTicker "" "AAPL" dEx
    ∧ Output.expander "No company description available."
        ∈ renderTicker "k" "EX" dNoSum :=
  ⟨(summary_display_amended "" "AAPL" dEx infoEx [100, 101] [100, 102, 101, 105, 103]
      rfl rfl (List.cons_ne_nil _ _) rfl).1
      "Designs and sells smartphones." rfl (by decide) (by decide),
   ((summary_display_amended "k" "EX" dNoSum infoNoSum [1] [1]
      rfl rfl (List.cons_ne_nil _ _) rfl).2.1 rfl).1⟩

end App
